import Mathlib

/-!
Shallow embedding of `src/library_manager.py` (a Gradio-based Python package
manager) and proofs about its specification.

Conventions of the embedding:
* Python strings are Lean `String`s; Python `str.strip`, `str.lower`,
  `sub in s`, `s.startswith`, `s.split` are modelled by executable helpers
  below, faithful to Python semantics on the inputs the program handles.
* The external process spawned by `run_pip_command` is modelled by a
  `ProcBehavior` oracle: it may fail to spawn (raising), emit lines and exit
  with a return code, emit lines and never exit, or raise mid-read.
* Messages `put` on the console queue are collected as a `List String` in
  order of enqueueing.
-/

namespace LibraryManager

/-- Whitespace characters recognised by Python `str.strip()` / `str.split()`
(ASCII subset, which covers every string the program constructs). -/
def pyIsSpace (c : Char) : Bool :=
  c = ' ' || c = '\t' || c = '\n' || c = '\r' || c = '\x0b' || c = '\x0c'

/-- Python `s.strip()`: drop leading and trailing whitespace. -/
def pyStrip (s : String) : String :=
  ⟨((s.toList.dropWhile pyIsSpace).reverse.dropWhile pyIsSpace).reverse⟩

/-- Python `s.lower()` (ASCII case mapping, which covers the comparisons the
program performs against its fixed lowercase lists). -/
def pyLower (s : String) : String :=
  ⟨s.toList.map Char.toLower⟩

/-- Python `sub in s` (substring containment). -/
def pyContains (s sub : String) : Bool :=
  decide (sub.toList <:+: s.toList)

/-- Python `s.startswith(p)`. -/
def pyStartswith (s p : String) : Bool :=
  decide (p.toList <+: s.toList)

/-- Python `s.split()` with no argument: maximal runs of non-whitespace. -/
def pySplitWs (s : String) : List String :=
  ((s.toList.splitOnP pyIsSpace).filter (fun t => t ≠ [])).map (fun t => ⟨t⟩)

/-- Fuel-driven worker for `pySplit`: splits at each leftmost occurrence of
the (non-empty) separator.  Structural recursion on the fuel so that
concrete instances reduce inside the kernel; fuel `input.length + 1`
always suffices because every call consumes at least one input element. -/
def pySplitGo (sep : List Char) : Nat → List Char → List Char → List (List Char)
  | _, [], acc => [acc.reverse]
  | 0, rest, acc => [acc.reverse ++ rest]
  | fuel + 1, c :: cs, acc =>
      if sep <+: c :: cs then
        acc.reverse :: pySplitGo sep fuel (cs.drop (sep.length - 1)) []
      else
        pySplitGo sep fuel cs (c :: acc)

/-- Python `s.split(sep)` for a non-empty separator `sep`. -/
def pySplit (s sep : String) : List String :=
  (pySplitGo sep.toList (s.toList.length + 1) s.toList []).map (fun t => ⟨t⟩)

/-- The separator line `"═" * 60 + "\n"` printed around command output. -/
def barChunk : String := String.mk (List.replicate 60 '═') ++ "\n"

/-- The chunk `f"\n🚀 Executing: {' '.join(command)}\n"` announcing a spawn. -/
def execChunk (command : List String) : String :=
  "\n🚀 Executing: " ++ String.intercalate " " command ++ "\n"

/-- The chunk reporting a zero exit code. -/
def successChunk : String := "✅ Command completed successfully!\n\n"

/-- The chunk reporting a non-zero exit code `rc`. -/
def failChunk (rc : Int) : String :=
  "❌ Command failed with return code " ++ toString rc ++ "\n\n"

/-- The chunk emitted by the `except` handler of `run_pip_command`. -/
def errChunk (msg : String) : String :=
  "\n💥 Error executing command: " ++ msg ++ "\n\n"

/-- Observable behaviour of the external process spawned by
`run_pip_command`: the spawn may raise (e.g. executable not found), the
process may emit output lines and exit with a return code, it may emit some
lines and then never exit, or reading its output may raise mid-stream. -/
inductive ProcBehavior where
  | spawnError (msg : String)
  | exits (lines : List String) (returncode : Int)
  | neverExits (lines : List String)
  | readError (linesBefore : List String) (msg : String)
deriving DecidableEq, Repr

/-- How an invocation of `run_pip_command` ends: normal success, normal
failure with the process's return code, an exception caught by its `except`
handler, an exception escaping to the caller (never produced, see
`C7_no_exception_escapes`), or never returning because the process never
exits. -/
inductive RunEnd where
  | success
  | failure (returncode : Int)
  | caught (msg : String)
  | raised (msg : String)
  | hung
deriving DecidableEq, Repr

/-- The observable outcome of one `run_pip_command` invocation: the chunks
put on the console queue, in order, and how the invocation ended. -/
structure RunTrace where
  chunks : List String
  result : RunEnd
deriving DecidableEq, Repr

/-- The body of `run_pip_command` without its surrounding `try`/`except`:
the chunks enqueued before the body finishes, and either a propagating
exception (`Except.error`) or a normal end.  Mirrors lines 187–208 of
`library_manager.py`: the two header chunks, `Popen`, the line-by-line read
loop, `process.wait()`, the closing bar, and the success/failure chunk
chosen by `process.returncode == 0`. -/
def run_pip_body (command : List String) (b : ProcBehavior) :
    List String × Except String RunEnd :=
  match b with
  | .spawnError msg =>
      ([execChunk command, barChunk], .error msg)
  | .readError lines msg =>
      ([execChunk command, barChunk] ++ lines, .error msg)
  | .exits lines rc =>
      ([execChunk command, barChunk] ++ lines ++
        [barChunk, if rc = 0 then successChunk else failChunk rc],
       .ok (if rc = 0 then .success else .failure rc))
  | .neverExits lines =>
      ([execChunk command, barChunk] ++ lines, .ok .hung)

/-- `run_pip_command` (lines 185–211): the body wrapped in
`try ... except Exception as e`, which converts any exception into the
`errChunk` console message instead of letting it propagate. -/
def run_pip_command (command : List String) (b : ProcBehavior) : RunTrace :=
  match run_pip_body command b with
  | (chunks, .ok e) => ⟨chunks, e⟩
  | (chunks, .error msg) => ⟨chunks ++ [errChunk msg], .caught msg⟩

/-- Every trace of `run_pip_command` starts with the execution-header chunk. -/
theorem run_chunks_head (command : List String) (b : ProcBehavior) :
    ∃ rest, (run_pip_command command b).chunks = execChunk command :: rest := by
  cases b <;> simp [run_pip_command, run_pip_body]

/-- Result of invoking one `PackageManager` verb: the messages it enqueues
on the console queue synchronously (before/instead of delegating), the
command vectors it hands to `run_pip_command` (via a background thread),
and whether the blank-name early return was taken. -/
structure VerbResult where
  consoleMsgs : List String
  spawned : List (List String)
  rejected : Bool
deriving DecidableEq, Repr

/-- Python `if not package_name or not package_name.strip():` — true exactly
when the name is blank or whitespace-only. -/
def pyIsBlank (s : String) : Bool := pyStrip s = ""

/-- The comparison operators recognised by `install_package`
(`['==', '>=', '<=', '>', '<', '~=', '!=']`). -/
def version_ops : List String := ["==", ">=", "<=", ">", "<", "~=", "!="]

/-- The version-handling block of `install_package` (lines 284–293), applied
to the already-stripped package name and the raw version field: if the
stripped version is non-empty and contains no comparison operator the spec
is `name == version`, if it contains one the stripped version is appended
verbatim, and if it is empty the spec is just the name. -/
def package_spec (strippedName version : String) : String :=
  if pyStrip version ≠ "" then
    let v := pyStrip version
    if !(version_ops.any (fun op => pyContains v op)) then
      strippedName ++ "==" ++ v
    else
      strippedName ++ v
  else
    strippedName

/-- `PackageManager.install_package` (lines 276–301). -/
def install_package (exe name version : String) : VerbResult :=
  if pyIsBlank name then
    ⟨["❌ Please enter a package name to install.\n\n"], [], true⟩
  else
    let n := pyStrip name
    let spec := package_spec n version
    ⟨["📦 Installing package: " ++ spec ++ "\n"],
     [[exe, "-m", "pip", "install", spec]], false⟩

/-- The fixed list `critical_packages` of `uninstall_package` (line 263). -/
def critical_packages : List String :=
  ["pip", "setuptools", "wheel", "python", "gradio"]

/-- The warning chunk `uninstall_package` emits for a critical name. -/
def warnChunk (n : String) : String :=
  "⚠️ WARNING: '" ++ n ++ "' is a critical system package!\n"

/-- `PackageManager.uninstall_package` (lines 254–274). -/
def uninstall_package (exe name : String) : VerbResult :=
  if pyIsBlank name then
    ⟨["❌ Please enter a package name to uninstall.\n\n"], [], true⟩
  else
    let n := pyStrip name
    let warnings :=
      if critical_packages.contains (pyLower n) then
        [warnChunk n,
         "Uninstalling this may break your Python environment.\n",
         "Proceeding anyway...\n\n"]
      else []
    ⟨warnings, [[exe, "-m", "pip", "uninstall", n, "-y"]], false⟩

/-- `PackageManager.update_package` (lines 303–316). -/
def update_package (exe name : String) : VerbResult :=
  if pyIsBlank name then
    ⟨["❌ Please enter a package name to update.\n\n"], [], true⟩
  else
    let n := pyStrip name
    ⟨["⬆️ Updating package: " ++ n ++ "\n"],
     [[exe, "-m", "pip", "install", "--upgrade", n]], false⟩

/-- `PackageManager.reinstall_package` (lines 318–331). -/
def reinstall_package (exe name : String) : VerbResult :=
  if pyIsBlank name then
    ⟨["❌ Please enter a package name to reinstall.\n\n"], [], true⟩
  else
    let n := pyStrip name
    ⟨["🔄 Reinstalling package: " ++ n ++ "\n"],
     [[exe, "-m", "pip", "install", "--force-reinstall", "--no-deps", n]], false⟩

/-- `PackageManager.get_package_info` (lines 240–252). -/
def get_package_info (exe name : String) : VerbResult :=
  if pyIsBlank name then
    ⟨["❌ Please enter a package name to get information.\n\n"], [], true⟩
  else
    let n := pyStrip name
    ⟨[], [[exe, "-m", "pip", "show", n]], false⟩

/-- Full console trace of one uninstall invocation: the verb's own
synchronous messages followed by the chunks produced by `run_pip_command`
on the spawned command under process behaviour `b`. -/
def uninstall_trace (exe name : String) (b : ProcBehavior) : List String :=
  let r := uninstall_package exe name
  r.consoleMsgs ++ (r.spawned.map (fun c => (run_pip_command c b).chunks)).flatten

/-- The console length threshold of `update_console` (line 452). -/
def console_max : Nat := 100000

/-- The number of trailing characters kept on truncation (line 454). -/
def console_keep : Nat := 80000

/-- The truncation marker prepended on truncation (line 454). -/
def trunc_marker : String := "... (earlier output truncated) ...\n\n"

/-- The retention budget after truncation: the marker plus the kept tail. -/
def retention_budget : Nat := trunc_marker.length + console_keep

/-- Python `s[-n:]`: the trailing `min n (length s)` characters. -/
def strTakeRight (n : Nat) (s : String) : String :=
  ⟨(s.toList.reverse.take n).reverse⟩

/-- One iteration of the `update_console` drain loop (lines 448–454): append
the dequeued message, then truncate if the buffer exceeds `console_max`. -/
def update_console_step (cur msg : String) : String :=
  let c := cur ++ msg
  if c.length > console_max then
    trunc_marker ++ strTakeRight console_keep c
  else c

/-- `PackageManager.update_console` (lines 445–457) applied to a queue of
pending messages: drain them in order, truncating after each append. -/
def update_console (cur : String) (msgs : List String) : String :=
  msgs.foldl update_console_step cur

/-- The environment `detect_usb_drive` consults when the mount-point check
fails: whether the platform is Linux, whether `/sys/block/<device>` exists,
and the result of `os.path.realpath` on it (or that this call raises). -/
structure SysEnv where
  isLinux : Bool
  sysBlockExists : Bool
  realpathRaises : Bool
  realpathResult : String
deriving DecidableEq, Repr

/-- The fixed mount-point list `usb_indicators` (line 62). -/
def usb_indicators : List String := ["/media/", "/mnt/", "/run/media/"]

/-- `detect_usb_drive` (lines 58–82): true when the mount point starts with
one of the `usb_indicators`, otherwise (on Linux, when the sysfs entry
exists and `realpath` succeeds) when the resolved path mentions `usb`;
every exception path yields `false`. -/
def detect_usb_drive (mountpoint : String) (env : SysEnv) : Bool :=
  if usb_indicators.any (fun ind => pyStartswith mountpoint ind) then
    true
  else if env.isLinux && env.sysBlockExists && !env.realpathRaises
      && pyContains (pyLower env.realpathResult) "usb" then
    true
  else
    false

/-- The `Type` field computed by `get_storage_info` (line 50). -/
def storage_type (mountpoint : String) (env : SysEnv) : String :=
  if detect_usb_drive mountpoint env then "USB" else "Internal"

/-- The fixed banner `upgrade_all_packages` enqueues before querying
(lines 362–367). -/
def bulk_banner : List String :=
  ["⚠️ BULK UPGRADE OPERATION\n",
   barChunk,
   "WARNING: This will attempt to upgrade ALL packages!\n",
   "This operation can take a very long time and may cause conflicts.\n",
   "It is recommended to upgrade packages individually.\n\n",
   "🚀 Starting bulk upgrade...\n"]

/-- Parsing of `pip list --outdated --format=freeze` output (lines 373–374):
strip, split on newlines, keep the part before `==` of each line that
contains `==`. -/
def parse_outdated (stdout : String) : List String :=
  (pySplit (pyStrip stdout) "\n").filterMap (fun line =>
    if pyContains line "==" then some ((pySplit line "==").headD "") else none)

/-- The command built for one bulk-upgrade entry (line 389) — identical in
shape to the one built by `update_package`. -/
def upgradeCmd (exe pkg : String) : List String :=
  [exe, "-m", "pip", "install", "--upgrade", pkg]

/-- The `Found {n} packages to upgrade:` line (line 380). -/
def foundMsg (n : Nat) : String :=
  "Found " ++ toString n ++ " packages to upgrade:\n"

/-- The preview bullet ` • {pkg}` (line 382). -/
def bulletMsg (pkg : String) : String := " • " ++ pkg ++ "\n"

/-- The elision line ` ... and {n - 10} more` (line 384). -/
def elisionMsg (n : Nat) : String :=
  " ... and " ++ toString (n - 10) ++ " more\n"

/-- The per-entry progress line `[{i}/{n}] Upgrading {pkg}...` (line 388). -/
def upgradingMsg (i n : Nat) (pkg : String) : String :=
  "\n[" ++ toString i ++ "/" ++ toString n ++ "] Upgrading " ++ pkg ++ "...\n"

/-- `PackageManager.upgrade_all_packages` (lines 360–395), parameterised by
the outcome of the synchronous `pip list --outdated` query (`Except.error`
models a raised exception, caught by the surrounding handler) and by the
behaviour `bhv i` of the `i`-th spawned upgrade process.  Returns the
console messages in enqueue order and the spawned command vectors in spawn
order; each entry runs `run_pip_command` synchronously, which cannot raise,
so the loop always reaches every entry. -/
def upgrade_all_packages (exe : String) (query : Except String String)
    (bhv : Nat → ProcBehavior) : List String × List (List String) :=
  match query with
  | .error e =>
      (bulk_banner ++ ["❌ Error during bulk upgrade: " ++ e ++ "\n\n"], [])
  | .ok out =>
      let pkgs := parse_outdated out
      if pkgs = [] then
        (bulk_banner ++ ["✅ All packages are already up to date!\n\n"], [])
      else
        let n := pkgs.length
        let preview :=
          [foundMsg n] ++ (pkgs.take 10).map bulletMsg ++
            (if n > 10 then [elisionMsg n] else [])
        let runs := pkgs.enum.map (fun p =>
          (upgradingMsg (p.1 + 1) n p.2 ::
             (run_pip_command (upgradeCmd exe p.2) (bhv p.1)).chunks,
           upgradeCmd exe p.2))
        (bulk_banner ++ preview ++ (runs.map Prod.fst).flatten,
         runs.map Prod.snd)

/-- One line of `pip list` output (lines 151–154): a non-blank line not
starting with `-` whose whitespace split has at least two parts becomes the
row `[parts[0], parts[1]]`. -/
def pip_list_row (line : String) : Option (List String) :=
  if pyStrip line ≠ "" && !(pyStartswith line "-") then
    match pySplitWs line with
    | p0 :: p1 :: _ => some [p0, p1]
    | _ => none
  else none

/-- Parsing of `pip list` output (lines 148–154): strip, split on newlines,
drop the two header lines, and keep the rows produced by `pip_list_row`. -/
def parse_pip_list (stdout : String) : List (List String) :=
  ((pySplit (pyStrip stdout) "\n").drop 2).filterMap pip_list_row

/-- The sort key `lambda x: x[0].lower()` of `get_installed_packages`
(line 155). -/
def pipRowKey (row : List String) : String := pyLower (row.headD "")

/-- The ordering induced by the sort key: row `a` before row `b` when the
lowercased name of `a` is at most that of `b`. -/
def pipRowLe (a b : List String) : Prop := pipRowKey a ≤ pipRowKey b

instance : DecidableRel pipRowLe := fun a b =>
  inferInstanceAs (Decidable (pipRowKey a ≤ pipRowKey b))

instance : IsTotal (List String) pipRowLe :=
  ⟨fun a b => le_total (pipRowKey a) (pipRowKey b)⟩

instance : IsTrans (List String) pipRowLe :=
  ⟨fun _ _ _ h h2 => le_trans h h2⟩

/-- `get_installed_packages` (lines 143–157), parameterised by the outcome
of the `pip list` subprocess (`Except.error` models a raised
`CalledProcessError`, the exception type the function catches): parse and
sort by lowercased name on success, return the single `Error` row on
failure.  Python's `sorted` is a stable sort by the key's order, modelled
by `List.insertionSort` over `pipRowLe`. -/
def get_installed_packages (query : Except String String) :
    List (List String) :=
  match query with
  | .ok out => List.insertionSort pipRowLe (parse_pip_list out)
  | .error e => [["Error", "Failed to get packages: " ++ e]]

/-- A Bool-level containment follows from list-level infix containment. -/
theorem pyContains_of_infix {s sub : String} (h : sub.toList <:+: s.toList) :
    pyContains s sub = true :=
  decide_eq_true h

/-- C1 counterexample: run against a process that never exits (hence does
not exit before any candidate timeout duration), `run_pip_command` emits
zero chunks containing "timed out" (the claim requires exactly one) and
never returns (`hung`), so it emits no failed-completion signal either. -/
theorem C1_counterexample :
    (run_pip_command ["python", "-m", "pip", "install", "numpy"]
        (.neverExits [])).result = .hung ∧
    ((run_pip_command ["python", "-m", "pip", "install", "numpy"]
        (.neverExits [])).chunks.countP
      (fun c => pyContains c "timed out")) = 0 := by
  constructor
  · rfl
  · decide

/-- C1 (amended): `run_pip_command` enforces no timeout.  For every command
whose process emits `lines` and never exits, the runner never terminates
the process and never returns: the console receives only the two header
chunks and the process's own output — no "timed out" chunk, no success
signal and no failed-completion signal. -/
theorem C1_amended_no_timeout (command : List String) (lines : List String) :
    run_pip_command command (.neverExits lines) =
      ⟨[execChunk command, barChunk] ++ lines, .hung⟩ := rfl

/-- C7: no exception propagates out of `run_pip_command`: its result is
never `raised`, and whenever its body would raise (spawn failure or any
other runtime error), the invocation instead appends the distinct failure
chunk `errChunk` to the console output and ends as `caught`. -/
theorem C7_no_exception_escapes (command : List String) (b : ProcBehavior) :
    (∀ msg, (run_pip_command command b).result ≠ .raised msg) ∧
    (∀ msg, (run_pip_body command b).2 = .error msg →
      errChunk msg ∈ (run_pip_command command b).chunks ∧
      (run_pip_command command b).result = .caught msg) := by
  cases b <;> simp [run_pip_command, run_pip_body]
  intro msg
  split <;> simp

/-- C7 witness: a spawn failure ("No such file or directory") is reported
as an `errChunk` console chunk and a caught (not raised) completion. -/
theorem C7_no_exception_escapes_witness :
    errChunk "No such file or directory" ∈
      (run_pip_command ["python", "-m", "pip", "list"]
        (.spawnError "No such file or directory")).chunks ∧
    (run_pip_command ["python", "-m", "pip", "list"]
        (.spawnError "No such file or directory")).result =
      .caught "No such file or directory" :=
  (C7_no_exception_escapes ["python", "-m", "pip", "list"]
    (.spawnError "No such file or directory")).2 "No such file or directory" rfl

/-- C8: for a process that exits normally, `run_pip_command` reports
success iff the exit code is zero; a zero exit appends the success chunk,
and a non-zero exit ends as `failure rc` and appends a failure chunk whose
text contains the exit code. -/
theorem C8_exit_code_success (command : List String) (lines : List String)
    (rc : Int) :
    ((run_pip_command command (.exits lines rc)).result = .success ↔ rc = 0) ∧
    (rc = 0 →
      successChunk ∈ (run_pip_command command (.exits lines rc)).chunks) ∧
    (rc ≠ 0 →
      (run_pip_command command (.exits lines rc)).result = .failure rc ∧
      failChunk rc ∈ (run_pip_command command (.exits lines rc)).chunks ∧
      pyContains (failChunk rc) (toString rc) = true) := by
  by_cases h : rc = 0
  · subst h
    simp [run_pip_command, run_pip_body]
  · refine ⟨by simp [run_pip_command, run_pip_body, h], fun h0 => absurd h0 h,
      fun _ => ⟨by simp [run_pip_command, run_pip_body, h],
        by simp [run_pip_command, run_pip_body, h],
        pyContains_of_infix ?_⟩⟩
    exact ⟨("❌ Command failed with return code " : String).toList,
      ("\n\n" : String).toList, by simp [failChunk]⟩

/-- C8 witness: exit code 2 yields a `failure 2` result and a failure chunk
containing "2". -/
theorem C8_exit_code_success_witness :
    (run_pip_command ["python", "-m", "pip", "install", "numpy"]
        (.exits ["boom\n"] 2)).result = .failure 2 ∧
    failChunk 2 ∈ (run_pip_command ["python", "-m", "pip", "install", "numpy"]
        (.exits ["boom\n"] 2)).chunks ∧
    pyContains (failChunk 2) (toString (2 : Int)) = true :=
  (C8_exit_code_success ["python", "-m", "pip", "install", "numpy"]
    ["boom\n"] 2).2.2 (by decide)

/-- C6: a mount point starting with one of the conventional removable-media
indicators is detected as USB and classified "USB" for every sysfs
environment. -/
theorem C6_usb_by_mountpoint (mountpoint : String) (env : SysEnv)
    (h : usb_indicators.any (fun ind => pyStartswith mountpoint ind) = true) :
    detect_usb_drive mountpoint env = true ∧
    storage_type mountpoint env = "USB" := by
  constructor
  · simp [detect_usb_drive, h]
  · simp [storage_type, detect_usb_drive, h]

/-- C6 witness: `/media/user/stick` classifies as USB even though the
sysfs environment resolves to a non-USB device path. -/
theorem C6_usb_by_mountpoint_witness :
    detect_usb_drive "/media/user/stick"
        ⟨true, true, false, "/sys/devices/pci0000:00/ata1/sda"⟩ = true ∧
    storage_type "/media/user/stick"
        ⟨true, true, false, "/sys/devices/pci0000:00/ata1/sda"⟩ = "USB" :=
  C6_usb_by_mountpoint "/media/user/stick"
    ⟨true, true, false, "/sys/devices/pci0000:00/ata1/sda"⟩ (by decide)

/-- C2: for a blank or whitespace-only package name, every package-name
verb (install, uninstall, update, reinstall, package-info) takes its
rejection branch and hands nothing to the Command Runner. -/
theorem C2_blank_name_rejected (exe name version : String)
    (h : pyStrip name = "") :
    ((install_package exe name version).spawned = [] ∧
      (install_package exe name version).rejected = true) ∧
    ((uninstall_package exe name).spawned = [] ∧
      (uninstall_package exe name).rejected = true) ∧
    ((update_package exe name).spawned = [] ∧
      (update_package exe name).rejected = true) ∧
    ((reinstall_package exe name).spawned = [] ∧
      (reinstall_package exe name).rejected = true) ∧
    ((get_package_info exe name).spawned = [] ∧
      (get_package_info exe name).rejected = true) := by
  simp [install_package, uninstall_package, update_package,
    reinstall_package, get_package_info, pyIsBlank, h]

/-- C2 witness: the whitespace-only name `"   "` is rejected by all five
verbs with no spawn. -/
theorem C2_blank_name_rejected_witness :
    ((install_package "python" "   " "1.0").spawned = [] ∧
      (install_package "python" "   " "1.0").rejected = true) ∧
    ((uninstall_package "python" "   ").spawned = [] ∧
      (uninstall_package "python" "   ").rejected = true) ∧
    ((update_package "python" "   ").spawned = [] ∧
      (update_package "python" "   ").rejected = true) ∧
    ((reinstall_package "python" "   ").spawned = [] ∧
      (reinstall_package "python" "   ").rejected = true) ∧
    ((get_package_info "python" "   ").spawned = [] ∧
      (get_package_info "python" "   ").rejected = true) :=
  C2_blank_name_rejected "python" "   " "1.0" (by decide)

/-- C3: for a non-blank, already-trimmed package name and version string,
the constructed package spec is `name ++ "==" ++ version` when the version
contains none of the comparison operators, and `name ++ version` verbatim
when it contains one; the install command spawned carries exactly that
spec. -/
theorem C3_version_spec (exe name version : String)
    (hn : pyStrip name = name) (hv : pyStrip version = version)
    (hn0 : name ≠ "") (hv0 : version ≠ "") :
    (version_ops.any (fun op => pyContains version op) = false →
      package_spec name version = name ++ "==" ++ version ∧
      (install_package exe name version).spawned =
        [[exe, "-m", "pip", "install", name ++ "==" ++ version]]) ∧
    (version_ops.any (fun op => pyContains version op) = true →
      package_spec name version = name ++ version ∧
      (install_package exe name version).spawned =
        [[exe, "-m", "pip", "install", name ++ version]]) := by
  constructor <;> intro hops <;>
    simp [install_package, package_spec, pyIsBlank, hn, hv, hn0, hv0, hops]

/-- C3 witness: `("numpy", "1.2.3")` (no operator) yields
`numpy==1.2.3`; the operator case is covered by the implication at this
input being vacuous only for the second conjunct. -/
theorem C3_version_spec_witness :
    (version_ops.any (fun op => pyContains "1.2.3" op) = false →
      package_spec "numpy" "1.2.3" = "numpy" ++ "==" ++ "1.2.3" ∧
      (install_package "python" "numpy" "1.2.3").spawned =
        [["python", "-m", "pip", "install", "numpy" ++ "==" ++ "1.2.3"]]) ∧
    (version_ops.any (fun op => pyContains "1.2.3" op) = true →
      package_spec "numpy" "1.2.3" = "numpy" ++ "1.2.3" ∧
      (install_package "python" "numpy" "1.2.3").spawned =
        [["python", "-m", "pip", "install", "numpy" ++ "1.2.3"]]) :=
  C3_version_spec "python" "numpy" "1.2.3" (by decide) (by decide)
    (by decide) (by decide)

/-- C3 operator-case check: a version carrying `>=` is concatenated
verbatim, with no inserted `==`. -/
theorem C3_operator_case :
    package_spec "numpy" ">=1.0" = "numpy>=1.0" ∧
    (install_package "python" "numpy" ">=1.0").spawned =
      [["python", "-m", "pip", "install", "numpy>=1.0"]] := by
  constructor <;> rfl

/-- C4: one console append that pushes past `console_max` truncates to at
most the retention budget and leaves the buffer starting with the
truncation marker; one that stays at or under `console_max` performs no
truncation at all. -/
theorem C4_console_truncation (cur msg : String) :
    ((cur ++ msg).length > console_max →
      (update_console_step cur msg).length ≤ retention_budget ∧
      ∃ t, update_console_step cur msg = trunc_marker ++ t) ∧
    ((cur ++ msg).length ≤ console_max →
      update_console_step cur msg = cur ++ msg) := by
  constructor <;> intro h
  · rw [update_console_step, if_pos h]
    refine ⟨?_, strTakeRight console_keep (cur ++ msg), rfl⟩
    rw [String.length_append, retention_budget]
    have : (strTakeRight console_keep (cur ++ msg)).length ≤ console_keep := by
      show ((cur ++ msg).toList.reverse.take console_keep).reverse.length ≤ _
      simp [List.length_take]
    omega
  · rw [update_console_step, if_neg (by omega)]

/-- C4 witness: appending "ab" to the empty console stays under the
maximum and performs no truncation. -/
theorem C4_console_truncation_witness :
    update_console_step "" "ab" = "" ++ "ab" :=
  (C4_console_truncation "" "ab").2 (by decide)

/-- C5: uninstalling a name on the critical list (compared
case-insensitively) emits the warning chunk, which appears in the combined
console trace strictly before the uninstall command's own execution chunk,
and the uninstall is still spawned; for a name not on the list the verb
emits no synchronous chunk at all and spawns the uninstall directly. -/
theorem C5_protected_warning (exe name : String) (b : ProcBehavior)
    (h : pyStrip name ≠ "") :
    (critical_packages.contains (pyLower (pyStrip name)) = true →
      (∃ post, uninstall_trace exe name b =
        warnChunk (pyStrip name) ::
          "Uninstalling this may break your Python environment.\n" ::
          "Proceeding anyway...\n\n" ::
          execChunk [exe, "-m", "pip", "uninstall", pyStrip name, "-y"] ::
          post) ∧
      (uninstall_package exe name).spawned =
        [[exe, "-m", "pip", "uninstall", pyStrip name, "-y"]]) ∧
    (critical_packages.contains (pyLower (pyStrip name)) = false →
      (uninstall_package exe name).consoleMsgs = [] ∧
      (uninstall_package exe name).spawned =
        [[exe, "-m", "pip", "uninstall", pyStrip name, "-y"]]) := by
  obtain ⟨rest, hrest⟩ :=
    run_chunks_head [exe, "-m", "pip", "uninstall", pyStrip name, "-y"] b
  constructor <;> intro hc
  · have hc' : pyLower (pyStrip name) ∈ critical_packages :=
      List.mem_of_elem_eq_true hc
    refine ⟨⟨rest, ?_⟩, ?_⟩
    · simp [uninstall_trace, uninstall_package, pyIsBlank, h, hc', hrest]
    · simp [uninstall_package, pyIsBlank, h, hc']
  · simp at hc
    constructor <;> simp [uninstall_package, pyIsBlank, h, hc]

/-- C5 witness: uninstalling `"PIP"` (critical, case-insensitively) puts
the warning chunk at the head of the trace, before the execution chunk,
and still spawns the uninstall command. -/
theorem C5_protected_warning_witness :
    (critical_packages.contains (pyLower (pyStrip "PIP")) = true →
      (∃ post, uninstall_trace "python" "PIP" (.exits [] 0) =
        warnChunk (pyStrip "PIP") ::
          "Uninstalling this may break your Python environment.\n" ::
          "Proceeding anyway...\n\n" ::
          execChunk ["python", "-m", "pip", "uninstall", pyStrip "PIP", "-y"] ::
          post) ∧
      (uninstall_package "python" "PIP").spawned =
        [["python", "-m", "pip", "uninstall", pyStrip "PIP", "-y"]]) ∧
    (critical_packages.contains (pyLower (pyStrip "PIP")) = false →
      (uninstall_package "python" "PIP").consoleMsgs = [] ∧
      (uninstall_package "python" "PIP").spawned =
        [["python", "-m", "pip", "uninstall", pyStrip "PIP", "-y"]]) :=
  C5_protected_warning "python" "PIP" (.exits [] 0) (by decide)

/-- Mapping a function of the payload over an enumerated list is mapping it
over the list itself. -/
theorem enum_map_snd_comp {α β : Type} (f : α → β) (l : List α) :
    l.enum.map (fun p => f p.2) = l.map f := by
  rw [show (fun p : Nat × α => f p.2) = f ∘ Prod.snd from rfl, ← List.map_map,
    List.enum_map_snd]

/-- C9: for a query whose parsed outdated list is non-empty, bulk upgrade
spawns exactly one upgrade command per outdated entry, in list order, for
every choice of per-entry process behaviour (so a failing entry never
prevents the next one); its console output opens with the banner, the
total-count line, the bullets for exactly the first ten names, and the
elision line exactly when more than ten are outdated; and each spawned
command is the same command the single-package update verb spawns for that
name. -/
theorem C9_bulk_upgrade (exe out : String) (bhv : Nat → ProcBehavior)
    (h : parse_outdated out ≠ []) :
    (upgrade_all_packages exe (.ok out) bhv).2 =
      (parse_outdated out).map (upgradeCmd exe) ∧
    (∃ tail, (upgrade_all_packages exe (.ok out) bhv).1 =
      bulk_banner ++ [foundMsg (parse_outdated out).length] ++
        ((parse_outdated out).take 10).map bulletMsg ++
        (if (parse_outdated out).length > 10 then
          [elisionMsg (parse_outdated out).length] else []) ++ tail) ∧
    (∀ p, pyStrip p = p → p ≠ "" →
      (update_package exe p).spawned = [upgradeCmd exe p]) := by
  refine ⟨?_, ?_, ?_⟩
  · simp [upgrade_all_packages, h]
    exact enum_map_snd_comp (upgradeCmd exe) _
  · refine ⟨((parse_outdated out).enum.map (fun p =>
      upgradingMsg (p.1 + 1) (parse_outdated out).length p.2 ::
        (run_pip_command (upgradeCmd exe p.2) (bhv p.1)).chunks)).flatten, ?_⟩
    simp [upgrade_all_packages, h]
    rfl
  · intro p hp hp0
    simp [update_package, pyIsBlank, upgradeCmd, hp, hp0]

/-- C9 witness: two outdated packages, each of whose upgrade processes
exits with code 1 (fails): both upgrade commands are still spawned, in
order, and the preview shows both names with no elision line. -/
theorem C9_bulk_upgrade_witness :
    (upgrade_all_packages "python" (.ok "pkga==1.0\npkgb==2.0")
        (fun _ => .exits [] 1)).2 =
      (parse_outdated "pkga==1.0\npkgb==2.0").map (upgradeCmd "python") ∧
    (∃ tail, (upgrade_all_packages "python" (.ok "pkga==1.0\npkgb==2.0")
        (fun _ => .exits [] 1)).1 =
      bulk_banner ++
        [foundMsg (parse_outdated "pkga==1.0\npkgb==2.0").length] ++
        ((parse_outdated "pkga==1.0\npkgb==2.0").take 10).map bulletMsg ++
        (if (parse_outdated "pkga==1.0\npkgb==2.0").length > 10 then
          [elisionMsg (parse_outdated "pkga==1.0\npkgb==2.0").length]
         else []) ++ tail) ∧
    (∀ p, pyStrip p = p → p ≠ "" →
      (update_package "python" p).spawned = [upgradeCmd "python" p]) :=
  C9_bulk_upgrade "python" "pkga==1.0\npkgb==2.0" (fun _ => .exits [] 1)
    (by decide)

/-- Any row produced by `pip_list_row` has exactly the two fields
`[name, version]`. -/
theorem pip_list_row_length {line : String} {row : List String}
    (h : pip_list_row line = some row) : row.length = 2 := by
  unfold pip_list_row at h
  split at h
  · split at h
    · cases h; rfl
    · exact Option.noConfusion h
  · exact Option.noConfusion h

/-- Every row of `parse_pip_list` has exactly two fields. -/
theorem parse_pip_list_row_length (out : String) :
    ∀ row ∈ parse_pip_list out, row.length = 2 := by
  intro row hrow
  rw [parse_pip_list] at hrow
  obtain ⟨line, -, hline⟩ := List.mem_filterMap.mp hrow
  exact pip_list_row_length hline

/-- C10: on a successful `pip list` query the returned rows are sorted by
package name compared case-insensitively and each row has exactly a name
and a version field; on a failed query the function returns the single
`Error` row instead of raising. -/
theorem C10_package_list (query : Except String String) :
    (∀ out, query = .ok out →
      List.Sorted pipRowLe (get_installed_packages query) ∧
      ∀ row ∈ get_installed_packages query, row.length = 2) ∧
    (∀ e, query = .error e →
      get_installed_packages query =
        [["Error", "Failed to get packages: " ++ e]]) := by
  constructor
  · rintro out rfl
    refine ⟨List.sorted_insertionSort pipRowLe _, fun row hrow => ?_⟩
    have hmem : row ∈ parse_pip_list out :=
      (List.perm_insertionSort pipRowLe (parse_pip_list out)).mem_iff.mp hrow
    exact parse_pip_list_row_length out row hmem
  · rintro e rfl
    rfl

/-- C10 witness: a concrete three-package listing (with mixed-case names)
yields case-insensitively sorted two-field rows. -/
theorem C10_package_list_witness :
    List.Sorted pipRowLe (get_installed_packages
      (.ok "Package Version\n------- -------\nnumpy 1.26.0\nAbc 2.0\nzlib 1.3")) ∧
    ∀ row ∈ get_installed_packages
      (.ok "Package Version\n------- -------\nnumpy 1.26.0\nAbc 2.0\nzlib 1.3"),
      row.length = 2 :=
  (C10_package_list
    (.ok "Package Version\n------- -------\nnumpy 1.26.0\nAbc 2.0\nzlib 1.3")).1
    "Package Version\n------- -------\nnumpy 1.26.0\nAbc 2.0\nzlib 1.3" rfl

end LibraryManager
